import Mathlib

/-!
Shallow embedding of `op-supervisor/supervisor/backend/syncnode/node.go`:
the per-chain node-synchronization and reset/conflict-resolution engine of
the supervisor. Oracle (backend) reads and Sync Target (node) mutations are
modelled as explicit environment functions; each operation returns, besides
its Go return value, the trace of node mutations and oracle queries it
issued, so that call counts and call arguments can be reasoned about.
Machine integers (`uint64` block numbers) are modelled as `Nat` with
explicit reduction modulo `2^64` where Go arithmetic can wrap.
-/

namespace Syncnode

/-- Width of Go's `uint64`, as a modulus. -/
def UINT64MOD : Nat := 18446744073709551616

/-- `eth.BlockID`: (hash, number) identity of a block. The 32-byte hash is
modelled as a `Nat`; Go's zero value corresponds to `0`. -/
structure BlockID where
  hash : Nat
  number : Nat
deriving DecidableEq, Repr

/-- `eth.BlockRef` / `eth.L1BlockRef`: a block id plus parent hash and time. -/
structure BlockRef where
  hash : Nat
  number : Nat
  parentHash : Nat
  time : Nat
deriving DecidableEq, Repr

/-- `(eth.BlockRef).ID()`. -/
def BlockRef.id (r : BlockRef) : BlockID := ⟨r.hash, r.number⟩

/-- `types.DerivedIDPair`: derived L2 block and the L1 block it derives from. -/
structure DerivedIDPair where
  derivedFrom : BlockID
  derived : BlockID
deriving DecidableEq, Repr

/-- `types.DerivedBlockRefPair`. -/
structure DerivedBlockRefPair where
  derivedFrom : BlockRef
  derived : BlockRef
deriving DecidableEq, Repr

/-- `types.BlockReplacement`. -/
structure BlockReplacement where
  replacement : BlockRef
  invalidated : BlockID
deriving DecidableEq, Repr

/-- Go's zero value of `eth.BlockID` (`eth.BlockID{}`, also `eth.BlockID{Number: 0}`). -/
def zeroBlockID : BlockID := ⟨0, 0⟩

/-- Go's zero value of `types.DerivedIDPair`. -/
def zeroDerivedIDPair : DerivedIDPair := ⟨zeroBlockID, zeroBlockID⟩

/-- Classification of an error returned by a backend (Safety Oracle) read:
`future` is recognized by `errors.Is(err, types.ErrFuture)` in `sendReset`,
`notFound` by `errors.Is(err, ethereum.NotFound)` in `onExhaustL1Event`;
everything else is opaque to the code under study. -/
inductive OracleErr
  | future
  | notFound
  | other
deriving DecidableEq, Repr

/-- An error returned by a Sync Target (node) mutation: either a JSON-RPC
error carrying a numeric code (`gethrpc.JsonError`, matched with
`errors.As`), or an error that is not a JSON-RPC error. -/
inductive NodeErr
  | rpc (code : Int)
  | plain
deriving DecidableEq, Repr

/-- The error kinds `resetSignal` branches on, via `errors.Is`:
`types.ErrConflict`, `types.ErrFuture`, `types.ErrOutOfOrder`; `other`
stands for any error matching none of the three. -/
inductive ErrKind
  | conflict
  | future
  | outOfOrder
  | other
deriving DecidableEq, Repr

/-- `maxWalkBackAttempts = 300` (node.go). -/
def maxWalkBackAttempts : Nat := 300

/-- `blockNotFoundRPCErrCode = -39001` (node.go). -/
def blockNotFoundRPCErrCode : Int := -39001

/-- `conflictingBlockRPCErrCode = -39002` (node.go). -/
def conflictingBlockRPCErrCode : Int := -39002

/-- The walk-back continuation test of `resolveConflict`:
`errors.As(err, &rpcErr) && (rpcErr.Code == blockNotFoundRPCErrCode || rpcErr.Code == conflictingBlockRPCErrCode)`. -/
def walkableResetErr : NodeErr → Bool
  | .rpc code => code == blockNotFoundRPCErrCode || code == conflictingBlockRPCErrCode
  | .plain => false

/-- Go `uint64` decrement (`currentBlock--`): subtraction wrapping modulo `2^64`. -/
def u64dec (n : Nat) : Nat := (n + (UINT64MOD - 1)) % UINT64MOD

/-- The environment of one engine invocation: the backend (Safety Oracle)
reads and Sync Target (node) calls of the `backend` and `SyncControl`
interfaces that node.go uses. Each read is a fixed response (the code
re-reads fresh per invocation but within one invocation each is called at
most once, except `SafeDerivedAt`, `L1BlockRefByNumber` and `Reset`, which
respond as functions of their arguments). `Except OracleErr _` models Go's
`(value, error)` returns; `Option NodeErr` models an error-only return,
`none` being success. -/
structure Env where
  localUnsafe : Except OracleErr BlockID
  localSafe : Except OracleErr DerivedIDPair
  crossSafe : Except OracleErr DerivedIDPair
  finalized : Except OracleErr BlockID
  safeDerivedAt : BlockID → Except OracleErr BlockID
  l1BlockRefByNumber : Nat → Except OracleErr BlockRef
  reset : BlockID → BlockID → BlockID → Option NodeErr
  provideL1 : BlockRef → Option NodeErr

/-- The distinct error results of `resolveConflict`, one constructor per
`fmt.Errorf` site, carrying the data interpolated into the message. -/
inductive ResolveErr
  | safeRetrievalFailed (l1 : BlockID) (e : OracleErr)
  | resetError (e : NodeErr)
  | reachedFinalized (finalizedNumber : Nat)
  | safeBlockRetrievalFailed (number : Nat) (e : OracleErr)
  | resetErrorAt (number : Nat) (e : NodeErr)
  | exceededMaxAttempts (bound : Nat)
deriving DecidableEq, Repr

deriving instance DecidableEq for Except

/-- Result of `resolveConflict`, with the trace of node `Reset` attempts
(the safe-candidate argument of each, in call order) and of backend
`SafeDerivedAt` queries (the `derivedFrom` argument of each, in call order). -/
structure ConflictOutcome where
  result : Except ResolveErr Unit
  resetAttempts : List BlockID
  oracleQueries : List BlockID
deriving DecidableEq, Repr

/-- Prepend one walk-back step's reset attempt and oracle query to an outcome. -/
def ConflictOutcome.push (sb q : BlockID) (o : ConflictOutcome) : ConflictOutcome :=
  ⟨o.result, sb :: o.resetAttempts, q :: o.oracleQueries⟩

/-- The walk-back loop of `resolveConflict` (node.go lines 413-436): `fuel`
is the remaining iterations of `for i := 0; i < maxWalkBackAttempts; i++`,
`currentBlock` the loop variable. Each iteration decrements `currentBlock`
(a Go `uint64`, hence `u64dec`), aborts at the finalized boundary, queries
`SafeDerivedAt` by number (zero hash), attempts a reset with the returned
candidate, and continues only on a walkable RPC error code. -/
def walkBack (env : Env) (u f : BlockID) : Nat → Nat → ConflictOutcome
  | 0, _ => ⟨.error (.exceededMaxAttempts maxWalkBackAttempts), [], []⟩
  | fuel + 1, currentBlock =>
    if u64dec currentBlock ≤ f.number then
      ⟨.error (.reachedFinalized f.number), [], []⟩
    else
      match env.safeDerivedAt ⟨0, u64dec currentBlock⟩ with
      | .error e => ⟨.error (.safeBlockRetrievalFailed (u64dec currentBlock) e), [],
          [⟨0, u64dec currentBlock⟩]⟩
      | .ok sb =>
        match env.reset u sb f with
        | none => ⟨.ok (), [sb], [⟨0, u64dec currentBlock⟩]⟩
        | some e =>
          if walkableResetErr e then
            ConflictOutcome.push sb ⟨0, u64dec currentBlock⟩
              (walkBack env u f fuel (u64dec currentBlock))
          else ⟨.error (.resetErrorAt (u64dec currentBlock) e), [sb],
            [⟨0, u64dec currentBlock⟩]⟩

/-- `resolveConflict` (node.go lines 383-437): fetch the safe block derived
at `l1Ref.ID()`, attempt a reset there, and on a walkable failure walk back
from its number; a non-walkable failure of the first attempt aborts with
zero walk-back steps. -/
def resolveConflict (env : Env) (l1Ref : BlockRef) (u f : BlockID) : ConflictOutcome :=
  match env.safeDerivedAt l1Ref.id with
  | .error e => ⟨.error (.safeRetrievalFailed l1Ref.id e), [], [l1Ref.id]⟩
  | .ok s =>
    match env.reset u s f with
    | none => ⟨.ok (), [s], [l1Ref.id]⟩
    | some e =>
      if walkableResetErr e then
        ConflictOutcome.push s l1Ref.id (walkBack env u f maxWalkBackAttempts s.number)
      else ⟨.error (.resetError e), [s], [l1Ref.id]⟩

/-- Observable actions of `resetSignal`: the node `Reset` calls issued, as
(unsafeTriple, safe, finalized) argument triples in call order, and whether
the conflict resolver (`resolveConflict`) was invoked. -/
structure SignalOutcome where
  resetCalls : List (BlockID × BlockID × BlockID)
  conflictInvoked : Bool
deriving DecidableEq, Repr

/-- `resetSignal` (node.go lines 300-348): read local-unsafe then finalized
(either failure returns with no action); then branch on the error kind.
Conflict invokes `resolveConflict`; Future reads local-safe, keeps Go's
zero value when that read fails (the warning is logged but execution
continues), and resets; OutOfOrder reads local-safe and returns on failure
before resetting; any other kind does nothing. -/
def resetSignal (env : Env) (errSignal : ErrKind) (l1Ref : BlockRef) : SignalOutcome :=
  match env.localUnsafe with
  | .error _ => ⟨[], false⟩
  | .ok u =>
    match env.finalized with
    | .error _ => ⟨[], false⟩
    | .ok f =>
      match errSignal with
      | .conflict =>
        ⟨(resolveConflict env l1Ref u f).resetAttempts.map (fun sb => (u, sb, f)), true⟩
      | .future =>
        match env.localSafe with
        | .error _ => ⟨[(u, zeroDerivedIDPair.derived, f)], false⟩
        | .ok s => ⟨[(u, s.derived, f)], false⟩
      | .outOfOrder =>
        match env.localSafe with
        | .error _ => ⟨[], false⟩
        | .ok s => ⟨[(u, s.derived, f)], false⟩
      | .other => ⟨[], false⟩

/-- `sendReset` (node.go lines 350-378): read local-unsafe, cross-safe and
finalized; a failing finalized read is tolerated exactly when it is the
`types.ErrFuture` classification, in which case `eth.BlockID{Number: 0}`
is substituted; then a single node `Reset` is issued. Returns the `Reset`
calls issued, as argument triples. -/
def sendReset (env : Env) : List (BlockID × BlockID × BlockID) :=
  match env.localUnsafe with
  | .error _ => []
  | .ok u =>
    match env.crossSafe with
    | .error _ => []
    | .ok s =>
      match env.finalized with
      | .error e =>
        if e = OracleErr.future then [(u, s.derived, ⟨0, 0⟩)] else []
      | .ok f => [(u, s.derived, f)]

/-- Observable actions of `onExhaustL1Event`: the number passed to the
backend's `L1BlockRefByNumber`, and the node `ProvideL1` calls issued. -/
structure ExhaustOutcome where
  l1Query : Nat
  provideCalls : List BlockRef
deriving DecidableEq, Repr

/-- `onExhaustL1Event` (node.go lines 439-463): fetch the L1 block at
`completed.DerivedFrom.Number + 1` (Go `uint64` addition, hence the
modulus); any fetch failure — the `ethereum.NotFound` classification is
merely logged at lower severity — ends the handler with no `ProvideL1`
call; on success exactly one `ProvideL1` call is made with the fetched
block, whose own failure is logged only. -/
def onExhaustL1Event (env : Env) (completed : DerivedBlockRefPair) : ExhaustOutcome :=
  match env.l1BlockRefByNumber ((completed.derivedFrom.number + 1) % UINT64MOD) with
  | .error _ => ⟨(completed.derivedFrom.number + 1) % UINT64MOD, []⟩
  | .ok nextL1 => ⟨(completed.derivedFrom.number + 1) % UINT64MOD, [nextL1]⟩

/-- `types.ManagedEvent`: the node-event envelope; each field is a Go
pointer (`nil` = absent), so several may be populated at once. -/
structure ManagedEvent where
  reset : Option String
  unsafeBlock : Option BlockRef
  derivationUpdate : Option DerivedBlockRefPair
  exhaustL1 : Option DerivedBlockRefPair
  replaceBlock : Option BlockReplacement
deriving DecidableEq, Repr

/-- One handler invocation of the node-event dispatcher, with its argument. -/
inductive HandlerCall
  | resetCall (errStr : String)
  | unsafeBlockCall (r : BlockRef)
  | derivationUpdateCall (p : DerivedBlockRefPair)
  | exhaustL1Call (p : DerivedBlockRefPair)
  | replaceBlockCall (r : BlockReplacement)
deriving DecidableEq, Repr

/-- Position of each handler in the fixed dispatch order of `onNodeEvent`. -/
def HandlerCall.kindIndex : HandlerCall → Nat
  | .resetCall _ => 0
  | .unsafeBlockCall _ => 1
  | .derivationUpdateCall _ => 2
  | .exhaustL1Call _ => 3
  | .replaceBlockCall _ => 4

/-- `onNodeEvent` (node.go lines 204-224): a `nil` event is logged and
dropped; otherwise each populated field's handler is invoked, in the fixed
source order Reset, UnsafeBlock, DerivationUpdate, ExhaustL1, ReplaceBlock.
The returned list is the sequence of handler invocations. -/
def onNodeEvent : Option ManagedEvent → List HandlerCall
  | none => []
  | some ev =>
    (match ev.reset with | some s => [HandlerCall.resetCall s] | none => []) ++
    (match ev.unsafeBlock with | some r => [HandlerCall.unsafeBlockCall r] | none => []) ++
    (match ev.derivationUpdate with | some p => [HandlerCall.derivationUpdateCall p] | none => []) ++
    (match ev.exhaustL1 with | some p => [HandlerCall.exhaustL1Call p] | none => []) ++
    (match ev.replaceBlock with | some r => [HandlerCall.replaceBlockCall r] | none => [])

/-- An event emitted onto the supervisor bus by a node-event handler. -/
inductive BusEvent
  | localUnsafeReceived (r : BlockRef)
  | localDerived (p : DerivedBlockRefPair)
  | replaceBlockEvent (r : BlockReplacement)
deriving DecidableEq, Repr

/-- The bus events each handler emits, read off the handler bodies:
`onUnsafeBlock` emits `LocalUnsafeReceivedEvent`, `onDerivationUpdate`
emits `LocalDerivedEvent`, `onReplaceBlock` emits `ReplaceBlockEvent`;
`onResetEvent` and `onExhaustL1Event` emit no bus event. -/
def handlerEmits : HandlerCall → List BusEvent
  | .resetCall _ => []
  | .unsafeBlockCall r => [.localUnsafeReceived r]
  | .derivationUpdateCall p => [.localDerived p]
  | .exhaustL1Call _ => []
  | .replaceBlockCall r => [.replaceBlockEvent r]

/-- Bus events emitted while dispatching one node event. -/
def dispatchEmits (ev : Option ManagedEvent) : List BusEvent :=
  ((onNodeEvent ev).map handlerEmits).flatten

/-- One response of the Sync Target's `PullEvent`: a pulled event (a Go
pointer, possibly nil), `io.EOF` (end of stream), or any other error —
a cancelled context surfaces as such an error. -/
inductive PullItem
  | item (ev : Option ManagedEvent)
  | endOfStream
  | fail (e : OracleErr)
deriving DecidableEq, Repr

/-- `PullEvents` (node.go lines 189-202), over the modelled response
sequence of the source: keeps pulling and dispatching until `io.EOF`
(returns the accumulated `pulledAny` and no error), or another error
(returns `pulledAny` and that error). `acc` is the `pulledAny` named
return, `false` at entry. Returns `none` when the modelled response list
is exhausted before the loop ends (the real loop would still be blocked
pulling); otherwise `some (pulledAny, terminal error, dispatched events)`. -/
def pullEventsLoop : List PullItem → Bool → Option (Bool × Option OracleErr × List (Option ManagedEvent))
  | [], _ => none
  | .endOfStream :: _, acc => some (acc, none, [])
  | .fail e :: _, acc => some (acc, some e, [])
  | .item ev :: rest, _ =>
    (pullEventsLoop rest true).map (fun r => (r.1, r.2.1, ev :: r.2.2))

/-- `PullEvents(ctx)` with `pulledAny` initialized to `false`. -/
def pullEvents (responses : List PullItem) : Option (Bool × Option OracleErr × List (Option ManagedEvent)) :=
  pullEventsLoop responses false

/-- A concrete environment in which every oracle read succeeds: by-number
`SafeDerivedAt` queries return a candidate of the queried number, and node
mutations succeed. Variants below override single fields. -/
def baseEnv : Env where
  localUnsafe := .ok ⟨7, 500⟩
  localSafe := .ok ⟨⟨11, 140⟩, ⟨12, 141⟩⟩
  crossSafe := .ok ⟨⟨13, 130⟩, ⟨14, 131⟩⟩
  finalized := .ok ⟨9, 100⟩
  safeDerivedAt := fun q => .ok ⟨0, q.number⟩
  l1BlockRefByNumber := fun n => .ok ⟨n, n, 0, 0⟩
  reset := fun _ _ _ => none
  provideL1 := fun _ => none

/-- Node accepts a reset exactly at safe-candidate number 120, rejecting
every other candidate with the `conflicting block` RPC code. -/
def walk120Env : Env :=
  { baseEnv with reset := fun _ sb _ =>
      if sb.number == 120 then none else some (.rpc conflictingBlockRPCErrCode) }

/-- Node accepts a reset exactly at safe-candidate number 1, rejecting
every other candidate with the `conflicting block` RPC code. -/
def walkOnly1Env : Env :=
  { baseEnv with reset := fun _ sb _ =>
      if sb.number == 1 then none else some (.rpc conflictingBlockRPCErrCode) }

/-- Node rejects every reset with the `block not found` RPC code. -/
def allFailEnv : Env :=
  { baseEnv with reset := fun _ _ _ => some (.rpc blockNotFoundRPCErrCode) }

/-- Node rejects every reset with an error that is not a JSON-RPC error. -/
def plainFailEnv : Env :=
  { baseEnv with reset := fun _ _ _ => some NodeErr.plain }

/-- Every `SafeDerivedAt` oracle read fails. -/
def oracleDownEnv : Env :=
  { baseEnv with safeDerivedAt := fun _ => .error OracleErr.other }

/-- The local-safe oracle read fails. -/
def noLocalSafeEnv : Env :=
  { baseEnv with localSafe := .error OracleErr.other }

/-- The local-unsafe oracle read fails. -/
def noLocalUnsafeEnv : Env :=
  { baseEnv with localUnsafe := .error OracleErr.other }

/-- The finalized oracle read fails with an unclassified error. -/
def noFinalizedEnv : Env :=
  { baseEnv with finalized := .error OracleErr.other }

/-- The finalized oracle read fails with the `future` classification. -/
def futureFinalizedEnv : Env :=
  { baseEnv with finalized := .error OracleErr.future }

/-- The cross-safe oracle read fails. -/
def noCrossSafeEnv : Env :=
  { baseEnv with crossSafe := .error OracleErr.other }

/-- The `L1BlockRefByNumber` oracle read fails with `not found`. -/
def l1NotFoundEnv : Env :=
  { baseEnv with l1BlockRefByNumber := fun _ => .error OracleErr.notFound }

theorem UINT64MOD_pos : 0 < UINT64MOD := by norm_num [UINT64MOD]

/-- Decrementing a positive in-range `uint64` does not wrap. -/
theorem u64dec_of_pos (n : Nat) (h1 : 1 ≤ n) (h2 : n < UINT64MOD) : u64dec n = n - 1 := by
  have hM := UINT64MOD_pos
  have h3 : n + (UINT64MOD - 1) = (n - 1) + UINT64MOD := by omega
  rw [u64dec, h3, Nat.add_mod_right, Nat.mod_eq_of_lt (by omega)]

/-- Decrementing `uint64` zero wraps to `2^64 - 1`. -/
theorem u64dec_zero : u64dec 0 = UINT64MOD - 1 := by
  have hM := UINT64MOD_pos
  rw [u64dec, Nat.zero_add, Nat.mod_eq_of_lt (by omega)]

theorem push_result (sb q : BlockID) (o : ConflictOutcome) :
    (ConflictOutcome.push sb q o).result = o.result := rfl

theorem push_resetAttempts (sb q : BlockID) (o : ConflictOutcome) :
    (ConflictOutcome.push sb q o).resetAttempts = sb :: o.resetAttempts := rfl

theorem push_oracleQueries (sb q : BlockID) (o : ConflictOutcome) :
    (ConflictOutcome.push sb q o).oracleQueries = q :: o.oracleQueries := rfl

/-- Walk-back success: when the oracle answers every by-number query with a
candidate of that number and the node accepts a reset exactly at candidate
number `C` (rejecting every other candidate with a walkable code), the walk
from `cb` with at least `cb - C` iterations of fuel succeeds, after exactly
`cb - C` reset attempts, all at numbers in `[C, cb)`. -/
theorem walkBack_finds (env : Env) (u f : BlockID) (cand : Nat → BlockID) (C : Nat)
    (hOracle : ∀ n, env.safeDerivedAt ⟨0, n⟩ = .ok (cand n))
    (hCandNum : ∀ n, (cand n).number = n)
    (hResetOk : ∀ b, b.number = C → env.reset u b f = none)
    (hResetFail : ∀ b, b.number ≠ C →
      ∃ e, env.reset u b f = some e ∧ walkableResetErr e = true)
    (hFC : f.number < C) :
    ∀ fuel cb, C < cb → cb < UINT64MOD → cb - C ≤ fuel →
      (walkBack env u f fuel cb).result = .ok () ∧
      (walkBack env u f fuel cb).resetAttempts.length = cb - C ∧
      ∀ b ∈ (walkBack env u f fuel cb).resetAttempts, C ≤ b.number ∧ b.number < cb := by
  intro fuel
  induction fuel with
  | zero => intro cb h1 _ h3; omega
  | succ fuel ih =>
    intro cb h1 h2 h3
    have hdec : u64dec cb = cb - 1 := u64dec_of_pos cb (by omega) h2
    simp only [walkBack, hdec, if_neg (by omega : ¬ cb - 1 ≤ f.number), hOracle (cb - 1)]
    by_cases hc : cb - 1 = C
    · rw [hResetOk (cand (cb - 1)) (by rw [hCandNum]; exact hc)]
      refine ⟨rfl, by simp; omega, ?_⟩
      intro b hb
      simp only [List.mem_singleton] at hb
      subst hb
      rw [hCandNum]
      omega
    · obtain ⟨e, he, hw⟩ := hResetFail (cand (cb - 1)) (by rw [hCandNum]; exact hc)
      rw [he]
      simp only [hw, if_true, ConflictOutcome.push]
      obtain ⟨ihr, ihl, ihm⟩ := ih (cb - 1) (by omega) (by omega) (by omega)
      refine ⟨ihr, by simp [ihl]; omega, ?_⟩
      intro b hb
      rcases List.mem_cons.mp hb with hb | hb
      · subst hb; rw [hCandNum]; omega
      · have := ihm b hb; omega

/-- Walk-back boundary exhaustion: when every candidate with a number in
`(f.number, S]` is rejected with a walkable code, and there is enough fuel
to reach the finalized number, the walk from `cb ≤ S` aborts with the
`reached finalized block` error. -/
theorem walkBack_hitsFinalized (env : Env) (u f : BlockID) (cand : Nat → BlockID) (S : Nat)
    (hOracle : ∀ n, env.safeDerivedAt ⟨0, n⟩ = .ok (cand n))
    (hCandNum : ∀ n, (cand n).number = n)
    (hResetFail : ∀ b, f.number < b.number → b.number ≤ S →
      ∃ e, env.reset u b f = some e ∧ walkableResetErr e = true) :
    ∀ fuel cb, f.number < cb → cb ≤ S → cb < UINT64MOD → cb - f.number ≤ fuel →
      (walkBack env u f fuel cb).result = .error (.reachedFinalized f.number) := by
  intro fuel
  induction fuel with
  | zero => intro cb h1 _ _ h4; omega
  | succ fuel ih =>
    intro cb h1 h2 h3 h4
    have hdec : u64dec cb = cb - 1 := u64dec_of_pos cb (by omega) h3
    by_cases hb : cb - 1 ≤ f.number
    · simp only [walkBack, hdec, if_pos hb]
    · simp only [walkBack, hdec, if_neg hb, hOracle (cb - 1)]
      obtain ⟨e, he, hw⟩ := hResetFail (cand (cb - 1))
        (by rw [hCandNum]; omega) (by rw [hCandNum]; omega)
      rw [he]
      simp only [hw, if_true, ConflictOutcome.push]
      exact ih (cb - 1) (by omega) (by omega) (by omega) (by omega)

/-- Walk-back attempt-bound exhaustion: when every candidate queried at a
number in `[L, U)` is rejected with a walkable code, and the fuel runs out
strictly before the walk could reach the finalized number, the walk aborts
with the `exceeded maximum walk-back attempts` error, having queried only
numbers in `[cb - fuel, cb)`. -/
theorem walkBack_exhausts (env : Env) (u f : BlockID) (cand : Nat → BlockID) (L U : Nat)
    (hOracle : ∀ n, env.safeDerivedAt ⟨0, n⟩ = .ok (cand n))
    (hResetFail : ∀ n, L ≤ n → n < U →
      ∃ e, env.reset u (cand n) f = some e ∧ walkableResetErr e = true) :
    ∀ fuel cb, L + fuel ≤ cb → f.number + fuel < cb → cb ≤ U → cb < UINT64MOD →
      (walkBack env u f fuel cb).result =
        .error (.exceededMaxAttempts maxWalkBackAttempts) ∧
      ∀ q ∈ (walkBack env u f fuel cb).oracleQueries,
        cb - fuel ≤ q.number ∧ q.number < cb := by
  intro fuel
  induction fuel with
  | zero =>
    intro cb _ _ _ _
    exact ⟨rfl, by intro q hq; simp [walkBack] at hq⟩
  | succ fuel ih =>
    intro cb h1 h2 h3 h4
    have hdec : u64dec cb = cb - 1 := u64dec_of_pos cb (by omega) h4
    simp only [walkBack, hdec, if_neg (by omega : ¬ cb - 1 ≤ f.number), hOracle (cb - 1)]
    obtain ⟨e, he, hw⟩ := hResetFail (cb - 1) (by omega) (by omega)
    rw [he]
    simp only [hw, if_true, ConflictOutcome.push]
    obtain ⟨ihr, ihq⟩ := ih (cb - 1) (by omega) (by omega) (by omega) (by omega)
    refine ⟨ihr, ?_⟩
    intro q hq
    rcases List.mem_cons.mp hq with hq | hq
    · subst hq; simp; omega
    · have := ihq q hq; omega

/-- One unfolding step of the walk-back loop, in the walkable-failure case. -/
theorem walkBack_one_step (env : Env) (u f : BlockID) (fuel cb : Nat) (sb : BlockID)
    (e : NodeErr)
    (hb : ¬ u64dec cb ≤ f.number)
    (hO : env.safeDerivedAt ⟨0, u64dec cb⟩ = .ok sb)
    (hR : env.reset u sb f = some e)
    (hw : walkableResetErr e = true) :
    walkBack env u f (fuel + 1) cb =
      ConflictOutcome.push sb ⟨0, u64dec cb⟩ (walkBack env u f fuel (u64dec cb)) := by
  simp only [walkBack, if_neg hb, hO, hR, hw, if_true]

/-- Claim C1 (amended): for a conflict resolution in which finalized has
number `F = f.number`, the oracle-derived initial candidate `s` has number
`S = s.number` with `S > F`, the Sync Target's `Reset` succeeds exactly at
candidate number `C` with `F < C ≤ S` (failing with a walkable code at
every other candidate number), and — the amendment — `S - C` is within the
walk-back bound of 300, `resolveConflict` terminates successfully having
issued exactly `S - C + 1` reset attempts (hence at most that many), none
of them at a safe-candidate number `≤ F`. -/
theorem C1_walkback_termination
    (env : Env) (l1Ref : BlockRef) (u f s : BlockID) (cand : Nat → BlockID) (C : Nat)
    (hInit : env.safeDerivedAt l1Ref.id = .ok s)
    (hOracle : ∀ n, env.safeDerivedAt ⟨0, n⟩ = .ok (cand n))
    (hCandNum : ∀ n, (cand n).number = n)
    (hResetOk : ∀ b, b.number = C → env.reset u b f = none)
    (hResetFail : ∀ b, b.number ≠ C →
      ∃ e, env.reset u b f = some e ∧ walkableResetErr e = true)
    (hFC : f.number < C) (hCS : C ≤ s.number)
    (hBound : s.number - C ≤ maxWalkBackAttempts)
    (hS64 : s.number < UINT64MOD) :
    (resolveConflict env l1Ref u f).result = .ok () ∧
    (resolveConflict env l1Ref u f).resetAttempts.length = s.number - C + 1 ∧
    ∀ b ∈ (resolveConflict env l1Ref u f).resetAttempts, f.number < b.number := by
  by_cases hc : s.number = C
  · have hres : resolveConflict env l1Ref u f = ⟨.ok (), [s], [l1Ref.id]⟩ := by
      simp only [resolveConflict, hInit, hResetOk s hc]
    rw [hres]
    refine ⟨rfl, by simp; omega, ?_⟩
    intro b hb
    simp only [List.mem_singleton] at hb
    subst hb
    omega
  · obtain ⟨e, he, hw⟩ := hResetFail s hc
    have hres : resolveConflict env l1Ref u f =
        ConflictOutcome.push s l1Ref.id
          (walkBack env u f maxWalkBackAttempts s.number) := by
      simp only [resolveConflict, hInit, he, hw, if_true]
    obtain ⟨wr, wl, wm⟩ := walkBack_finds env u f cand C hOracle hCandNum hResetOk
      hResetFail hFC maxWalkBackAttempts s.number (by omega) hS64 (by omega)
    refine ⟨?_, ?_, ?_⟩
    · rw [hres, push_result, wr]
    · rw [hres, push_resetAttempts, List.length_cons, wl]
    · rw [hres, push_resetAttempts]
      intro b hb
      rcases List.mem_cons.mp hb with hb | hb
      · subst hb; omega
      · have := wm b hb; omega

/-- Claim C1 witness: the spec's end-to-end scenario — finalized number
100, initial candidate number 150, node accepts exactly candidate 120 —
succeeds after exactly 31 reset attempts, none at a number `≤ 100`. -/
theorem C1_walkback_termination_witness :
    (resolveConflict walk120Env ⟨5, 150, 0, 0⟩ ⟨7, 500⟩ ⟨9, 100⟩).result = .ok () ∧
    (resolveConflict walk120Env ⟨5, 150, 0, 0⟩ ⟨7, 500⟩ ⟨9, 100⟩).resetAttempts.length = 31 ∧
    ∀ b ∈ (resolveConflict walk120Env ⟨5, 150, 0, 0⟩ ⟨7, 500⟩ ⟨9, 100⟩).resetAttempts,
      (100 : Nat) < b.number := by
  have h := C1_walkback_termination walk120Env ⟨5, 150, 0, 0⟩ ⟨7, 500⟩ ⟨9, 100⟩
    ⟨0, 150⟩ (fun n => ⟨0, n⟩) 120
    rfl (fun n => rfl) (fun n => rfl)
    (by intro b hb; simp [walk120Env, baseEnv, hb])
    (by
      intro b hb
      refine ⟨.rpc conflictingBlockRPCErrCode, ?_, by decide⟩
      simp [walk120Env, baseEnv]
      omega)
    (by decide) (by decide) (by decide) (by norm_num [UINT64MOD])
  exact ⟨h.1, h.2.1, h.2.2⟩

/-- Claim C1 counterexample: with finalized number 0, initial candidate
number 302 and the node accepting exactly candidate number 1 (walkable
`conflicting block` failures everywhere else) — so `F < C ≤ S` holds as
the claim requires — `resolveConflict` does not terminate successfully: the
accepted candidate lies more than 300 steps below the start, so the
attempt bound is exhausted first. -/
theorem C1_walkback_termination_cex :
    walkOnly1Env.reset ⟨7, 500⟩ ⟨0, 1⟩ ⟨0, 0⟩ = none ∧
    (resolveConflict walkOnly1Env ⟨5, 302, 0, 0⟩ ⟨7, 500⟩ ⟨0, 0⟩).result =
      .error (.exceededMaxAttempts maxWalkBackAttempts) := by
  constructor
  · decide
  · have hO : ∀ n, walkOnly1Env.safeDerivedAt ⟨0, n⟩ = .ok ⟨0, n⟩ := fun n => rfl
    have hRF : ∀ n, 2 ≤ n → n < 302 →
        ∃ e, walkOnly1Env.reset ⟨7, 500⟩ ((fun k => (⟨0, k⟩ : BlockID)) n) ⟨0, 0⟩ = some e ∧
          walkableResetErr e = true := by
      intro n h1 h2
      refine ⟨.rpc conflictingBlockRPCErrCode, ?_, by decide⟩
      simp [walkOnly1Env, baseEnv]
      omega
    have hw := walkBack_exhausts walkOnly1Env ⟨7, 500⟩ ⟨0, 0⟩ (fun k => ⟨0, k⟩) 2 302
      hO hRF maxWalkBackAttempts 302 (by decide) (by decide) (by decide)
      (by norm_num [UINT64MOD])
    have hI : walkOnly1Env.safeDerivedAt ⟨5, 302⟩ = .ok ⟨0, 302⟩ := rfl
    have hR : walkOnly1Env.reset ⟨7, 500⟩ ⟨0, 302⟩ ⟨0, 0⟩ =
        some (.rpc conflictingBlockRPCErrCode) := rfl
    have hW : walkableResetErr (NodeErr.rpc conflictingBlockRPCErrCode) = true := rfl
    have hres : resolveConflict walkOnly1Env ⟨5, 302, 0, 0⟩ ⟨7, 500⟩ ⟨0, 0⟩ =
        ConflictOutcome.push ⟨0, 302⟩ ⟨5, 302⟩
          (walkBack walkOnly1Env ⟨7, 500⟩ ⟨0, 0⟩ maxWalkBackAttempts 302) := by
      simp only [resolveConflict, BlockRef.id, hI, hR, hW, if_true]
    rw [hres, push_result, hw.1]

/-- Claim C2: when no reset candidate succeeds and every failure carries a
walkable code, `resolveConflict` reports the `reached finalized block`
error when the walk-back can reach the finalized number within the 300
loop attempts (`S - F ≤ 300`), and otherwise the
`exceeded maximum walk-back attempts (300)` error; the two failure modes
are distinct error values. -/
theorem C2_walkback_exhaustion
    (env : Env) (l1Ref : BlockRef) (u f s : BlockID) (cand : Nat → BlockID)
    (hInit : env.safeDerivedAt l1Ref.id = .ok s)
    (hOracle : ∀ n, env.safeDerivedAt ⟨0, n⟩ = .ok (cand n))
    (hCandNum : ∀ n, (cand n).number = n)
    (hResetFail : ∀ b, f.number < b.number → b.number ≤ s.number →
      ∃ e, env.reset u b f = some e ∧ walkableResetErr e = true)
    (hFS : f.number < s.number) (hS64 : s.number < UINT64MOD) :
    (s.number ≤ f.number + maxWalkBackAttempts →
      (resolveConflict env l1Ref u f).result = .error (.reachedFinalized f.number)) ∧
    (f.number + maxWalkBackAttempts < s.number →
      (resolveConflict env l1Ref u f).result =
        .error (.exceededMaxAttempts maxWalkBackAttempts)) ∧
    (∀ n b, ResolveErr.reachedFinalized n ≠ ResolveErr.exceededMaxAttempts b) := by
  obtain ⟨e, he, hw⟩ := hResetFail s hFS (le_refl _)
  have hres : resolveConflict env l1Ref u f =
      ConflictOutcome.push s l1Ref.id
        (walkBack env u f maxWalkBackAttempts s.number) := by
    simp only [resolveConflict, hInit, he, hw, if_true]
  refine ⟨?_, ?_, by intro n b h; exact ResolveErr.noConfusion h⟩
  · intro hle
    rw [hres, push_result]
    exact walkBack_hitsFinalized env u f cand s.number hOracle hCandNum hResetFail
      maxWalkBackAttempts s.number hFS (le_refl _) hS64 (by omega)
  · intro hgt
    rw [hres, push_result]
    have hRF : ∀ n, f.number + 1 ≤ n → n < s.number →
        ∃ e2, env.reset u (cand n) f = some e2 ∧ walkableResetErr e2 = true := by
      intro n h1 h2
      exact hResetFail (cand n) (by rw [hCandNum]; omega) (by rw [hCandNum]; omega)
    exact (walkBack_exhausts env u f cand (f.number + 1) s.number hOracle hRF
      maxWalkBackAttempts s.number (by omega) (by omega) (le_refl _) hS64).1

/-- Claim C2 witness: with every reset rejected under the walkable
`block not found` code, the walk from candidate number 3 above finalized
number 1 hits the finalized boundary, while the walk from candidate number
302 above finalized number 0 exhausts the 300-attempt bound first. -/
theorem C2_walkback_exhaustion_witness :
    (resolveConflict allFailEnv ⟨5, 3, 0, 0⟩ ⟨7, 500⟩ ⟨9, 1⟩).result =
      .error (.reachedFinalized 1) ∧
    (resolveConflict allFailEnv ⟨5, 302, 0, 0⟩ ⟨7, 500⟩ ⟨0, 0⟩).result =
      .error (.exceededMaxAttempts maxWalkBackAttempts) := by
  constructor
  · have h := C2_walkback_exhaustion allFailEnv ⟨5, 3, 0, 0⟩ ⟨7, 500⟩ ⟨9, 1⟩
      ⟨0, 3⟩ (fun n => ⟨0, n⟩) rfl (fun n => rfl) (fun n => rfl)
      (by intro b _ _; exact ⟨.rpc blockNotFoundRPCErrCode, rfl, by decide⟩)
      (by decide) (by norm_num [UINT64MOD])
    exact h.1 (by decide)
  · have h := C2_walkback_exhaustion allFailEnv ⟨5, 302, 0, 0⟩ ⟨7, 500⟩ ⟨0, 0⟩
      ⟨0, 302⟩ (fun n => ⟨0, n⟩) rfl (fun n => rfl) (fun n => rfl)
      (by intro b _ _; exact ⟨.rpc blockNotFoundRPCErrCode, rfl, by decide⟩)
      (by decide) (by norm_num [UINT64MOD])
    exact h.2.1 (by decide)

/-- Claim C3: a non-walkable failure of the very first reset attempt makes
`resolveConflict` return that error immediately — its trace shows exactly
one `SafeDerivedAt` read (the initial one, at `l1Ref.ID()`) and exactly
one `Reset` call; and when the initial `SafeDerivedAt` read itself fails,
it returns an error having issued no `Reset` call at all. -/
theorem C3_nonwalkable_shortcircuit
    (env1 env2 : Env) (l1Ref : BlockRef) (u f s : BlockID) (e : NodeErr) (oe : OracleErr)
    (hInit1 : env1.safeDerivedAt l1Ref.id = .ok s)
    (hReset1 : env1.reset u s f = some e)
    (hNotWalk : walkableResetErr e = false)
    (hInit2 : env2.safeDerivedAt l1Ref.id = .error oe) :
    ((resolveConflict env1 l1Ref u f).result = .error (.resetError e) ∧
      (resolveConflict env1 l1Ref u f).resetAttempts = [s] ∧
      (resolveConflict env1 l1Ref u f).oracleQueries = [l1Ref.id]) ∧
    ((resolveConflict env2 l1Ref u f).result = .error (.safeRetrievalFailed l1Ref.id oe) ∧
      (resolveConflict env2 l1Ref u f).resetAttempts = []) := by
  constructor
  · have hres : resolveConflict env1 l1Ref u f =
        ⟨.error (.resetError e), [s], [l1Ref.id]⟩ := by
      simp only [resolveConflict, hInit1, hReset1, hNotWalk, Bool.false_eq_true,
        if_false]
    rw [hres]
    exact ⟨rfl, rfl, rfl⟩
  · have hres : resolveConflict env2 l1Ref u f =
        ⟨.error (.safeRetrievalFailed l1Ref.id oe), [], [l1Ref.id]⟩ := by
      simp only [resolveConflict, hInit2]
    rw [hres]
    exact ⟨rfl, rfl⟩

/-- Claim C3 witness: a first reset rejected with an error that is not a
JSON-RPC error short-circuits after one oracle read and one reset attempt;
a failing initial oracle read aborts with no reset attempt. -/
theorem C3_nonwalkable_shortcircuit_witness :
    ((resolveConflict plainFailEnv ⟨5, 150, 0, 0⟩ ⟨7, 500⟩ ⟨9, 100⟩).result =
        .error (.resetError NodeErr.plain) ∧
      (resolveConflict plainFailEnv ⟨5, 150, 0, 0⟩ ⟨7, 500⟩ ⟨9, 100⟩).resetAttempts =
        [⟨0, 150⟩] ∧
      (resolveConflict plainFailEnv ⟨5, 150, 0, 0⟩ ⟨7, 500⟩ ⟨9, 100⟩).oracleQueries =
        [⟨5, 150⟩]) ∧
    ((resolveConflict oracleDownEnv ⟨5, 150, 0, 0⟩ ⟨7, 500⟩ ⟨9, 100⟩).result =
        .error (.safeRetrievalFailed ⟨5, 150⟩ OracleErr.other) ∧
      (resolveConflict oracleDownEnv ⟨5, 150, 0, 0⟩ ⟨7, 500⟩ ⟨9, 100⟩).resetAttempts = []) :=
  C3_nonwalkable_shortcircuit plainFailEnv oracleDownEnv ⟨5, 150, 0, 0⟩ ⟨7, 500⟩ ⟨9, 100⟩
    ⟨0, 150⟩ NodeErr.plain OracleErr.other rfl rfl rfl rfl

/-- Claim C4: under a failing local-safe oracle read, a `resetSignal` with
the OutOfOrder kind aborts without any node `Reset`, while a `resetSignal`
with the Future kind still issues the `Reset`, substituting the zero-value
safe reference — the intentional asymmetry of the source. -/
theorem C4_outOfOrder_future_asymmetry
    (env : Env) (l1Ref : BlockRef) (u fb : BlockID) (oe : OracleErr)
    (hU : env.localUnsafe = .ok u)
    (hF : env.finalized = .ok fb)
    (hS : env.localSafe = .error oe) :
    (resetSignal env .outOfOrder l1Ref).resetCalls = [] ∧
    (resetSignal env .future l1Ref).resetCalls = [(u, zeroBlockID, fb)] := by
  constructor
  · have hres : resetSignal env .outOfOrder l1Ref = ⟨[], false⟩ := by
      simp only [resetSignal, hU, hF, hS]
    rw [hres]
  · have hres : resetSignal env .future l1Ref = ⟨[(u, zeroBlockID, fb)], false⟩ := by
      simp only [resetSignal, hU, hF, hS, zeroDerivedIDPair]
    rw [hres]

/-- Claim C4 witness: concretely, with the local-safe read failing and
local-unsafe `(7, 500)` / finalized `(9, 100)` available, OutOfOrder issues
no reset and Future issues one with the zero-value safe reference. -/
theorem C4_outOfOrder_future_asymmetry_witness :
    (resetSignal noLocalSafeEnv .outOfOrder ⟨5, 150, 0, 0⟩).resetCalls = [] ∧
    (resetSignal noLocalSafeEnv .future ⟨5, 150, 0, 0⟩).resetCalls =
      [(⟨7, 500⟩, zeroBlockID, ⟨9, 100⟩)] :=
  C4_outOfOrder_future_asymmetry noLocalSafeEnv ⟨5, 150, 0, 0⟩ ⟨7, 500⟩ ⟨9, 100⟩
    OracleErr.other rfl rfl rfl

/-- Claim C5: `resetSignal` issues no node `Reset` and never reaches the
conflict resolver when the local-unsafe read fails, or when the finalized
read fails; and an error kind other than Conflict, Future and OutOfOrder
produces no action at all. -/
theorem C5_resetSignal_guards :
    (∀ (env : Env) (k : ErrKind) (l1Ref : BlockRef) (oe : OracleErr),
      env.localUnsafe = .error oe →
        (resetSignal env k l1Ref).resetCalls = [] ∧
        (resetSignal env k l1Ref).conflictInvoked = false) ∧
    (∀ (env : Env) (k : ErrKind) (l1Ref : BlockRef) (u : BlockID) (oe : OracleErr),
      env.localUnsafe = .ok u → env.finalized = .error oe →
        (resetSignal env k l1Ref).resetCalls = [] ∧
        (resetSignal env k l1Ref).conflictInvoked = false) ∧
    (∀ (env : Env) (l1Ref : BlockRef),
      (resetSignal env .other l1Ref).resetCalls = [] ∧
      (resetSignal env .other l1Ref).conflictInvoked = false) := by
  refine ⟨?_, ?_, ?_⟩
  · intro env k l1Ref oe h
    have hres : resetSignal env k l1Ref = ⟨[], false⟩ := by
      simp only [resetSignal, h]
    rw [hres]
    exact ⟨rfl, rfl⟩
  · intro env k l1Ref u oe h1 h2
    have hres : resetSignal env k l1Ref = ⟨[], false⟩ := by
      simp only [resetSignal, h1, h2]
    rw [hres]
    exact ⟨rfl, rfl⟩
  · intro env l1Ref
    have hres : resetSignal env .other l1Ref = ⟨[], false⟩ := by
      rcases h1 : env.localUnsafe with oe | u
      · simp only [resetSignal, h1]
      · rcases h2 : env.finalized with oe | fb
        · simp only [resetSignal, h1, h2]
        · simp only [resetSignal, h1, h2]
    rw [hres]
    exact ⟨rfl, rfl⟩

/-- Claim C5 witness: concrete instances of all three guards — a failing
local-unsafe read under the Conflict kind, a failing finalized read under
the Future kind, and an unclassified error kind with all reads available. -/
theorem C5_resetSignal_guards_witness :
    ((resetSignal noLocalUnsafeEnv .conflict ⟨5, 150, 0, 0⟩).resetCalls = [] ∧
      (resetSignal noLocalUnsafeEnv .conflict ⟨5, 150, 0, 0⟩).conflictInvoked = false) ∧
    ((resetSignal noFinalizedEnv .future ⟨5, 150, 0, 0⟩).resetCalls = [] ∧
      (resetSignal noFinalizedEnv .future ⟨5, 150, 0, 0⟩).conflictInvoked = false) ∧
    ((resetSignal baseEnv .other ⟨5, 150, 0, 0⟩).resetCalls = [] ∧
      (resetSignal baseEnv .other ⟨5, 150, 0, 0⟩).conflictInvoked = false) :=
  ⟨C5_resetSignal_guards.1 noLocalUnsafeEnv .conflict ⟨5, 150, 0, 0⟩ OracleErr.other rfl,
   C5_resetSignal_guards.2.1 noFinalizedEnv .future ⟨5, 150, 0, 0⟩ ⟨7, 500⟩
     OracleErr.other rfl rfl,
   C5_resetSignal_guards.2.2 baseEnv ⟨5, 150, 0, 0⟩⟩

/-- Claim C6: `sendReset` substitutes block number 0 for finalized exactly
when the finalized read fails with the `future` classification; any other
finalized-read failure, or a failing local-unsafe or cross-safe read,
issues no `Reset`; with all three reads available exactly one `Reset` is
issued with (local-unsafe, cross-safe.Derived, finalized). -/
theorem C6_sendReset_finalized_handling :
    (∀ (env : Env) (u : BlockID) (s : DerivedIDPair),
      env.localUnsafe = .ok u → env.crossSafe = .ok s →
      env.finalized = .error .future →
      sendReset env = [(u, s.derived, ⟨0, 0⟩)]) ∧
    (∀ (env : Env) (u : BlockID) (s : DerivedIDPair) (e : OracleErr),
      env.localUnsafe = .ok u → env.crossSafe = .ok s →
      env.finalized = .error e → e ≠ .future → sendReset env = []) ∧
    (∀ (env : Env) (oe : OracleErr),
      env.localUnsafe = .error oe → sendReset env = []) ∧
    (∀ (env : Env) (u : BlockID) (oe : OracleErr),
      env.localUnsafe = .ok u → env.crossSafe = .error oe → sendReset env = []) ∧
    (∀ (env : Env) (u : BlockID) (s : DerivedIDPair) (fb : BlockID),
      env.localUnsafe = .ok u → env.crossSafe = .ok s → env.finalized = .ok fb →
      sendReset env = [(u, s.derived, fb)]) := by
  refine ⟨?_, ?_, ?_, ?_, ?_⟩
  · intro env u s h1 h2 h3
    simp only [sendReset, h1, h2, h3, eq_self_iff_true, if_true]
  · intro env u s e h1 h2 h3 he
    simp only [sendReset, h1, h2, h3, if_neg he]
  · intro env oe h1
    simp only [sendReset, h1]
  · intro env u oe h1 h2
    simp only [sendReset, h1, h2]
  · intro env u s fb h1 h2 h3
    simp only [sendReset, h1, h2, h3]

/-- Claim C6 witness: the five cases at concrete environments, including
the `future`-classified finalized failure yielding a reset with finalized
block number 0, and the fully-available case yielding exactly one reset. -/
theorem C6_sendReset_finalized_handling_witness :
    sendReset futureFinalizedEnv = [(⟨7, 500⟩, ⟨14, 131⟩, ⟨0, 0⟩)] ∧
    sendReset noFinalizedEnv = [] ∧
    sendReset noLocalUnsafeEnv = [] ∧
    sendReset noCrossSafeEnv = [] ∧
    sendReset baseEnv = [(⟨7, 500⟩, ⟨14, 131⟩, ⟨9, 100⟩)] :=
  ⟨C6_sendReset_finalized_handling.1 futureFinalizedEnv ⟨7, 500⟩ ⟨⟨13, 130⟩, ⟨14, 131⟩⟩
     rfl rfl rfl,
   C6_sendReset_finalized_handling.2.1 noFinalizedEnv ⟨7, 500⟩ ⟨⟨13, 130⟩, ⟨14, 131⟩⟩
     OracleErr.other rfl rfl rfl (by decide),
   C6_sendReset_finalized_handling.2.2.1 noLocalUnsafeEnv OracleErr.other rfl,
   C6_sendReset_finalized_handling.2.2.2.1 noCrossSafeEnv ⟨7, 500⟩ OracleErr.other rfl rfl,
   C6_sendReset_finalized_handling.2.2.2.2 baseEnv ⟨7, 500⟩ ⟨⟨13, 130⟩, ⟨14, 131⟩⟩
     ⟨9, 100⟩ rfl rfl rfl⟩

/-- Claim C7: the node-event dispatcher fires the handler of each populated
variant exactly once, in the fixed order Reset, UnsafeBlock,
DerivationUpdate, ExhaustL1, ReplaceBlock (several populated variants all
fire); an event with no populated variant, like a nil event, invokes no
handler and emits no bus event, and is not an error. -/
theorem C7_dispatch_order_and_empty (ev : ManagedEvent) :
    ((onNodeEvent (some ev)).countP (fun c => c.kindIndex == 0) =
      if ev.reset.isSome then 1 else 0) ∧
    ((onNodeEvent (some ev)).countP (fun c => c.kindIndex == 1) =
      if ev.unsafeBlock.isSome then 1 else 0) ∧
    ((onNodeEvent (some ev)).countP (fun c => c.kindIndex == 2) =
      if ev.derivationUpdate.isSome then 1 else 0) ∧
    ((onNodeEvent (some ev)).countP (fun c => c.kindIndex == 3) =
      if ev.exhaustL1.isSome then 1 else 0) ∧
    ((onNodeEvent (some ev)).countP (fun c => c.kindIndex == 4) =
      if ev.replaceBlock.isSome then 1 else 0) ∧
    (onNodeEvent (some ev)).Pairwise (fun a b => a.kindIndex < b.kindIndex) ∧
    (ev.reset = none → ev.unsafeBlock = none → ev.derivationUpdate = none →
      ev.exhaustL1 = none → ev.replaceBlock = none →
      onNodeEvent (some ev) = [] ∧ dispatchEmits (some ev) = []) ∧
    (onNodeEvent none = [] ∧ dispatchEmits none = []) := by
  obtain ⟨r, ub, du, ex, rb⟩ := ev
  cases r <;> cases ub <;> cases du <;> cases ex <;> cases rb <;>
    simp [onNodeEvent, dispatchEmits, handlerEmits, HandlerCall.kindIndex,
      List.countP_cons, List.countP_nil]

/-- Claim C7 witness: a doubly-populated event (UnsafeBlock and
ReplaceBlock) fires each of the two handlers once, and the empty event
fires none and emits nothing. -/
theorem C7_dispatch_order_and_empty_witness :
    ((onNodeEvent (some ⟨none, some ⟨1, 2, 3, 4⟩, none, none,
        some ⟨⟨1, 2, 3, 4⟩, ⟨5, 6⟩⟩⟩)).countP (fun c => c.kindIndex == 1) = 1) ∧
    ((onNodeEvent (some ⟨none, some ⟨1, 2, 3, 4⟩, none, none,
        some ⟨⟨1, 2, 3, 4⟩, ⟨5, 6⟩⟩⟩)).countP (fun c => c.kindIndex == 4) = 1) ∧
    onNodeEvent (some ⟨none, none, none, none, none⟩) = [] ∧
    dispatchEmits (some ⟨none, none, none, none, none⟩) = [] := by
  have h1 := C7_dispatch_order_and_empty
    ⟨none, some ⟨1, 2, 3, 4⟩, none, none, some ⟨⟨1, 2, 3, 4⟩, ⟨5, 6⟩⟩⟩
  have h2 := C7_dispatch_order_and_empty ⟨none, none, none, none, none⟩
  have h3 := h2.2.2.2.2.2.2.1 rfl rfl rfl rfl rfl
  exact ⟨h1.2.1, h1.2.2.2.2.1, h3.1, h3.2⟩

/-- One step of the `PullEvents` loop ending in `io.EOF`: every pulled
event is dispatched in order and the accumulated `pulledAny` is returned
with no error. -/
theorem pullEventsLoop_eof (evs : List (Option ManagedEvent)) (rest : List PullItem) :
    ∀ acc, pullEventsLoop (evs.map PullItem.item ++ PullItem.endOfStream :: rest) acc =
      some (acc || !evs.isEmpty, none, evs) := by
  induction evs with
  | nil => intro acc; simp [pullEventsLoop]
  | cons e evs ih => intro acc; simp [pullEventsLoop, ih true]

/-- One step of the `PullEvents` loop ending in a real error: every pulled
event is dispatched in order and the error is returned. -/
theorem pullEventsLoop_fail (evs : List (Option ManagedEvent)) (rest : List PullItem)
    (e : OracleErr) :
    ∀ acc, pullEventsLoop (evs.map PullItem.item ++ PullItem.fail e :: rest) acc =
      some (acc || !evs.isEmpty, some e, evs) := by
  induction evs with
  | nil => intro acc; simp [pullEventsLoop]
  | cons ev evs ih => intro acc; simp [pullEventsLoop, ih true]

/-- Claim C8: `PullEvents` pulls and dispatches events one at a time until
the source reports end-of-stream or fails: on end-of-stream it returns
`pulledAny` with no error, on an error it returns `pulledAny` with that
error, and in both cases `pulledAny` is true exactly when at least one
event was pulled (the dispatched events are exactly the pulled ones, in
order). -/
theorem C8_pullEvents (evs : List (Option ManagedEvent)) (rest : List PullItem)
    (e : OracleErr) :
    pullEvents (evs.map PullItem.item ++ PullItem.endOfStream :: rest) =
      some (!evs.isEmpty, none, evs) ∧
    pullEvents (evs.map PullItem.item ++ PullItem.fail e :: rest) =
      some (!evs.isEmpty, some e, evs) := by
  constructor
  · rw [pullEvents, pullEventsLoop_eof]
    simp
  · rw [pullEvents, pullEventsLoop_fail]
    simp

/-- Claim C9: on an ExhaustL1 event the engine queries the oracle for the
L1 block at `completed.DerivedFrom.Number + 1`; any fetch failure — the
`not found` classification included — results in no `ProvideL1` call (and
no surfaced error: the handler returns normally); a successful fetch
results in exactly one `ProvideL1` call carrying the fetched block. -/
theorem C9_exhaustL1_feeder
    (env : Env) (completed : DerivedBlockRefPair)
    (hNum : completed.derivedFrom.number + 1 < UINT64MOD) :
    (onExhaustL1Event env completed).l1Query = completed.derivedFrom.number + 1 ∧
    (∀ oe, env.l1BlockRefByNumber (completed.derivedFrom.number + 1) = .error oe →
      (onExhaustL1Event env completed).provideCalls = []) ∧
    (∀ b, env.l1BlockRefByNumber (completed.derivedFrom.number + 1) = .ok b →
      (onExhaustL1Event env completed).provideCalls = [b]) := by
  have hmod : (completed.derivedFrom.number + 1) % UINT64MOD =
      completed.derivedFrom.number + 1 := Nat.mod_eq_of_lt hNum
  refine ⟨?_, ?_, ?_⟩
  · rcases h : env.l1BlockRefByNumber (completed.derivedFrom.number + 1) with oe | b
    · simp only [onExhaustL1Event, hmod, h]
    · simp only [onExhaustL1Event, hmod, h]
  · intro oe h
    simp only [onExhaustL1Event, hmod, h]
  · intro b h
    simp only [onExhaustL1Event, hmod, h]

/-- Claim C9 witness: with `completed.DerivedFrom.Number = 400`, the
feeder queries L1 number 401; a `not found` fetch makes no `ProvideL1`
call, while a successful fetch makes exactly one with the fetched block. -/
theorem C9_exhaustL1_feeder_witness :
    (onExhaustL1Event l1NotFoundEnv ⟨⟨21, 400, 0, 0⟩, ⟨22, 900, 0, 0⟩⟩).l1Query = 401 ∧
    (onExhaustL1Event l1NotFoundEnv ⟨⟨21, 400, 0, 0⟩, ⟨22, 900, 0, 0⟩⟩).provideCalls = [] ∧
    (onExhaustL1Event baseEnv ⟨⟨21, 400, 0, 0⟩, ⟨22, 900, 0, 0⟩⟩).provideCalls =
      [⟨401, 401, 0, 0⟩] := by
  have h1 := C9_exhaustL1_feeder l1NotFoundEnv ⟨⟨21, 400, 0, 0⟩, ⟨22, 900, 0, 0⟩⟩
    (by norm_num [UINT64MOD])
  have h2 := C9_exhaustL1_feeder baseEnv ⟨⟨21, 400, 0, 0⟩, ⟨22, 900, 0, 0⟩⟩
    (by norm_num [UINT64MOD])
  exact ⟨h1.1, h1.2.1 OracleErr.notFound rfl, h2.2.2 ⟨401, 401, 0, 0⟩ rfl⟩

/-- Claim C10: the walk-back counter is a `uint64` decremented before the
finalized-boundary check: when the initial candidate has block number 0
and its reset fails with a walkable code, the decrement wraps to
`2^64 - 1` instead of triggering the finalized-boundary abort, and (with
the oracle answering and every reset failing walkably) the walk proceeds
at enormous block numbers — every post-initial oracle query is at a number
`≥ 2^64 - 300` — until the 300-attempt bound stops it. -/
theorem C10_walkback_u64_wraparound
    (env : Env) (l1Ref : BlockRef) (u f s : BlockID) (cand : Nat → BlockID)
    (hInit : env.safeDerivedAt l1Ref.id = .ok s)
    (hS0 : s.number = 0)
    (hOracle : ∀ n, env.safeDerivedAt ⟨0, n⟩ = .ok (cand n))
    (hResetFail : ∀ b, ∃ e, env.reset u b f = some e ∧ walkableResetErr e = true)
    (hF : f.number + maxWalkBackAttempts < UINT64MOD - 1) :
    (resolveConflict env l1Ref u f).result =
      .error (.exceededMaxAttempts maxWalkBackAttempts) ∧
    (resolveConflict env l1Ref u f).oracleQueries.head? = some l1Ref.id ∧
    (resolveConflict env l1Ref u f).oracleQueries.tail.head? =
      some ⟨0, UINT64MOD - 1⟩ ∧
    ∀ q ∈ (resolveConflict env l1Ref u f).oracleQueries.tail,
      UINT64MOD - maxWalkBackAttempts ≤ q.number := by
  have hM := UINT64MOD_pos
  have hF' : f.number + 300 < UINT64MOD - 1 := hF
  obtain ⟨e0, he0, hw0⟩ := hResetFail s
  obtain ⟨e1, he1, hw1⟩ := hResetFail (cand (u64dec 0))
  have hRF : ∀ n, 0 ≤ n → n < UINT64MOD →
      ∃ e2, env.reset u (cand n) f = some e2 ∧ walkableResetErr e2 = true := by
    intro n _ _
    exact hResetFail (cand n)
  have hw := walkBack_exhausts env u f cand 0 UINT64MOD hOracle hRF
    299 (UINT64MOD - 1) (by omega) (by omega) (by omega) (by omega)
  have hres : resolveConflict env l1Ref u f =
      ConflictOutcome.push s l1Ref.id
        (walkBack env u f maxWalkBackAttempts s.number) := by
    simp only [resolveConflict, hInit, he0, hw0, if_true]
  have hbz : ¬ u64dec 0 ≤ f.number := by rw [u64dec_zero]; omega
  have hstep : walkBack env u f maxWalkBackAttempts s.number =
      ConflictOutcome.push (cand (UINT64MOD - 1)) ⟨0, UINT64MOD - 1⟩
        (walkBack env u f 299 (UINT64MOD - 1)) := by
    rw [hS0, show maxWalkBackAttempts = 299 + 1 from rfl,
      walkBack_one_step env u f 299 0 (cand (u64dec 0)) e1 hbz (hOracle (u64dec 0)) he1 hw1,
      u64dec_zero]
  refine ⟨?_, ?_, ?_, ?_⟩
  · rw [hres, push_result, hstep, push_result, hw.1]
  · rw [hres, push_oracleQueries, List.head?_cons]
  · rw [hres, push_oracleQueries, List.tail_cons, hstep, push_oracleQueries,
      List.head?_cons]
  · rw [hres, push_oracleQueries, List.tail_cons, hstep, push_oracleQueries]
    intro q hq
    have h300 : maxWalkBackAttempts = 300 := rfl
    rcases List.mem_cons.mp hq with hq | hq
    · subst hq
      rw [h300]
      show UINT64MOD - 300 ≤ UINT64MOD - 1
      omega
    · have := hw.2 q hq
      rw [h300]
      omega

/-- Claim C10 witness: concretely, with finalized number 100, an initial
candidate of number 0 whose reset fails with `block not found`, the
resolver walks into numbers near `2^64`: the first walk-back query is at
`2^64 - 1` and the run ends with the attempt-bound error. -/
theorem C10_walkback_u64_wraparound_witness :
    (resolveConflict allFailEnv ⟨5, 0, 0, 0⟩ ⟨7, 500⟩ ⟨9, 100⟩).result =
      .error (.exceededMaxAttempts maxWalkBackAttempts) ∧
    (resolveConflict allFailEnv ⟨5, 0, 0, 0⟩ ⟨7, 500⟩ ⟨9, 100⟩).oracleQueries.head? =
      some ⟨5, 0⟩ ∧
    (resolveConflict allFailEnv ⟨5, 0, 0, 0⟩ ⟨7, 500⟩ ⟨9, 100⟩).oracleQueries.tail.head? =
      some ⟨0, UINT64MOD - 1⟩ ∧
    ∀ q ∈ (resolveConflict allFailEnv ⟨5, 0, 0, 0⟩ ⟨7, 500⟩ ⟨9, 100⟩).oracleQueries.tail,
      UINT64MOD - maxWalkBackAttempts ≤ q.number :=
  C10_walkback_u64_wraparound allFailEnv ⟨5, 0, 0, 0⟩ ⟨7, 500⟩ ⟨9, 100⟩ ⟨0, 0⟩
    (fun n => ⟨0, n⟩) rfl rfl (fun n => rfl)
    (fun b => ⟨.rpc blockNotFoundRPCErrCode, rfl, by decide⟩)
    (by norm_num [UINT64MOD, maxWalkBackAttempts])

end Syncnode
